import Mathlib

/-!
A shallow embedding of the `ThreadPool` class (ThreadPool.h / ThreadPool.cpp).

All mutable members protected by `queueMutex_` are gathered in `PoolState`;
each member function becomes a pure transition on that state, executed as one
critical section. Tasks are identified by natural numbers; the `std::future`
returned by `Enqueue` is modelled by the id of the task it belongs to; a task
body is a computation that either succeeds or raises an error
(`Except String Unit`), and `std::packaged_task` captures that outcome into the
shared state of the future instead of letting it escape.
-/

/-- The state protected by `queueMutex_`: `tasks_` (front of the queue at the
head of the list), the `stop_` flag, the `activeTasks_` counter and the
`maxQueueSize_` bound. -/
structure PoolState where
  tasks : List Nat
  stopping : Bool
  activeTasks : Nat
  maxQueueSize : Nat
  deriving DecidableEq, Repr

/-- `SignalThreadsToStop` (ThreadPool.cpp lines 57-64): sets `stop_` to true
under the lock. -/
def SignalThreadsToStop (s : PoolState) : PoolState :=
  { s with stopping := true }

/-- The wait predicate of `GetNextTask` (ThreadPool.cpp line 75):
`stop_ || tasks_.empty() == false`. A worker blocked in `GetNextTask`
proceeds only in states where this predicate holds. -/
def popWaitPred (s : PoolState) : Bool :=
  s.stopping || !s.tasks.isEmpty

/-- `GetNextTask` (ThreadPool.cpp lines 66-94): the transition performed, all
inside one critical section, once the wait predicate has released the worker.
If `stop_` is set and the queue is empty, the empty-function sentinel (`none`)
is returned and the state is untouched; otherwise the front task is removed and
`activeTasks_` is incremented. The `[]` fallback of the match mirrors no source
path: it is unreachable whenever `popWaitPred` holds. -/
def GetNextTask (s : PoolState) : PoolState × Option Nat :=
  if s.stopping && s.tasks.isEmpty then (s, none)
  else
    match s.tasks with
    | [] => (s, none)
    | t :: rest => ({ s with tasks := rest, activeTasks := s.activeTasks + 1 }, some t)

/-- `NotifyTaskCompletion` (ThreadPool.cpp lines 96-111): decrement
`activeTasks_`; the returned Bool records whether `finished_.notify_all()` was
called, i.e. whether `0 == activeTasks_ && tasks_.empty()` held after the
decrement. -/
def NotifyTaskCompletion (s : PoolState) : PoolState × Bool :=
  let s1 := { s with activeTasks := s.activeTasks - 1 }
  (s1, (s1.activeTasks == 0) && s1.tasks.isEmpty)

/-- The wait predicate of `WaitForAllTasks` (ThreadPool.cpp line 123):
`tasks_.empty() && 0 == activeTasks_`. `WaitForAllTasks` returns exactly in the
states where this predicate holds. -/
def WaitForAllTasksPred (s : PoolState) : Bool :=
  s.tasks.isEmpty && (s.activeTasks == 0)

/-- `Enqueue` (ThreadPool.h lines 143-175). The `stop_` flag is checked once, at
entry under the lock. When the queue is at or above `maxQueueSize_`, the caller
waits on `queueNotFull_` for at most 100 ms with the lock released; other
threads may mutate the shared state during that window, so the state observed
when the lock is re-acquired is `wake s` (`wake` is not applied when no wait
happens). Whether the wait ended because the predicate
`stop_ || tasks_.size() < maxQueueSize_` fired or because the timeout elapsed,
the task is then appended unconditionally and the future (modelled by the task
id) is returned. -/
def Enqueue (s : PoolState) (wake : PoolState → PoolState) (t : Nat) :
    PoolState × Except String Nat :=
  if s.stopping then
    (s, Except.error "enqueue on stopped ThreadPool")
  else
    let s1 := if s.maxQueueSize ≤ s.tasks.length then wake s else s
    ({ s1 with tasks := s1.tasks ++ [t] }, Except.ok t)

/-- `TryEnqueue` (ThreadPool.h lines 184-208): false if `stop_` is set or the
queue is full, otherwise the task is appended and the result is true. The
future of the packaged task is never retrieved — the caller receives only the
Bool. -/
def TryEnqueue (s : PoolState) (t : Nat) : PoolState × Bool :=
  if s.stopping then (s, false)
  else if s.maxQueueSize ≤ s.tasks.length then (s, false)
  else ({ s with tasks := s.tasks ++ [t] }, true)

/-- Outcome of one iteration of the worker loop (ThreadPool.cpp lines 10-35):
either the worker exited on the sentinel, or it ran task `t` and the
packaged task captured the given outcome into the shared state of its future. -/
inductive WorkerStep where
  | exited : WorkerStep
  | completed (t : Nat) (captured : Except String Unit) : WorkerStep
  deriving Repr

/-- One iteration of the worker loop (ThreadPool.cpp lines 10-35): call
`GetNextTask`; on the sentinel, exit. Otherwise invoke the queued closure,
which calls the `packaged_task`: the outcome of the task body `beh t`
(including an error) is captured into the future's shared state and never
escapes, so the loop always proceeds to `NotifyTaskCompletion`. -/
def workerIteration (beh : Nat → Except String Unit) (s : PoolState) :
    PoolState × WorkerStep :=
  match GetNextTask s with
  | (s1, none) => (s1, WorkerStep.exited)
  | (s1, some t) => ((NotifyTaskCompletion s1).1, WorkerStep.completed t (beh t))

/-- A sequence of blocking enqueues with no interference during capacity waits. -/
def enqueueSeq (s : PoolState) (ts : List Nat) : PoolState :=
  ts.foldl (fun a t => (Enqueue a id t).1) s

/-- `n` consecutive `GetNextTask` calls by workers, collecting the returned
tasks in order; stops early on the sentinel. -/
def popSeq : Nat → PoolState → List Nat
  | 0, _ => []
  | n + 1, s =>
    match GetNextTask s with
    | (_, none) => []
    | (s1, some t) => t :: popSeq n s1

theorem GetNextTask_cons (s : PoolState) (t : Nat) (rest : List Nat)
    (h : s.tasks = t :: rest) :
    GetNextTask s = ({ s with tasks := rest, activeTasks := s.activeTasks + 1 }, some t) := by
  simp [GetNextTask, h]

theorem popSeq_tasks (n : Nat) : ∀ s : PoolState, n ≤ s.tasks.length →
    popSeq n s = s.tasks.take n := by
  induction n with
  | zero => intro s _; simp [popSeq]
  | succ n ih =>
    intro s h
    match hq : s.tasks with
    | [] => rw [hq] at h; simp at h
    | t :: rest =>
      have hrest : n ≤ rest.length := by
        rw [hq] at h; simpa using Nat.le_of_succ_le_succ h
      have hg := GetNextTask_cons s t rest hq
      simp only [popSeq, hg, hq, List.take_succ_cons]
      rw [ih { s with tasks := rest, activeTasks := s.activeTasks + 1 } hrest]

theorem enqueueSeq_tasks (ts : List Nat) : ∀ s : PoolState, s.stopping = false →
    enqueueSeq s ts = { s with tasks := s.tasks ++ ts } := by
  induction ts with
  | nil => intro s _; simp [enqueueSeq]
  | cons t ts ih =>
    intro s h
    have h1 : (Enqueue s id t).1 = { s with tasks := s.tasks ++ [t] } := by
      simp [Enqueue, h]
    have h2 : enqueueSeq s (t :: ts) = enqueueSeq (Enqueue s id t).1 ts := rfl
    rw [h2, h1, ih { s with tasks := s.tasks ++ [t] } h]
    simp

/-- Claim C1, counterexample. In the state where shutdown has begun
(`stop_ = true`) and task 7 is still resident in the queue, `GetNextTask` does
not discard the task: it hands it to the worker, which runs it to completion.
This refutes the claim that a task resident in the queue when a worker observes
`stopping == true` is never executed. -/
theorem C1_counterexample :
    (GetNextTask { tasks := [7], stopping := true, activeTasks := 0, maxQueueSize := 10 }).2
        = some 7 ∧
    (workerIteration (fun _ => Except.ok ())
        { tasks := [7], stopping := true, activeTasks := 0, maxQueueSize := 10 }).2
        = WorkerStep.completed 7 (Except.ok ()) :=
  ⟨rfl, rfl⟩

/-- Claim C1, amended: during shutdown the workers drain the queue rather than
discard it. With `stop_` set, successive `GetNextTask` calls return every
queued task, in order, for execution; a worker receives the exit sentinel (and
so exits without touching the state) only when `stop_` holds and the queue is
already empty. In particular, if shutdown begins with tasks queued and none
executing, all of those tasks are executed before the pool joins. -/
theorem C1_shutdown_drains_queue (s : PoolState) (h : s.stopping = true) :
    popSeq s.tasks.length s = s.tasks ∧
    (s.tasks = [] → GetNextTask s = (s, none)) := by
  constructor
  · rw [popSeq_tasks s.tasks.length s (Nat.le_refl _), List.take_length]
  · intro he
    simp [GetNextTask, h, he]

/-- Claim C1, witness for the amended theorem: a pool shutting down with tasks
7 and 8 queued hands both to workers, in queue order. -/
theorem C1_witness :
    popSeq 2 { tasks := [7, 8], stopping := true, activeTasks := 0, maxQueueSize := 10 } = [7, 8] :=
  (C1_shutdown_drains_queue
    { tasks := [7, 8], stopping := true, activeTasks := 0, maxQueueSize := 10 } rfl).1

/-- Claim C2: the predicate `WaitForAllTasks` waits on is exactly the
"all work done" condition `queue.length == 0 ∧ activeCount == 0`, so the call
never returns while `activeCount > 0` or the queue is non-empty and can return
as soon as both hold simultaneously; and `NotifyTaskCompletion` fires
`finished_.notify_all()` exactly when the condition holds after its decrement,
so a blocked waiter is woken once the condition becomes true. -/
theorem C2_waitForAllTasks_condition (s : PoolState) :
    (WaitForAllTasksPred s = true ↔ (s.tasks.length = 0 ∧ s.activeTasks = 0)) ∧
    ((NotifyTaskCompletion s).2 = true ↔
      WaitForAllTasksPred (NotifyTaskCompletion s).1 = true) := by
  constructor
  · simp [WaitForAllTasksPred, List.isEmpty_iff, List.length_eq_zero]
  · simp [WaitForAllTasksPred, NotifyTaskCompletion, Bool.and_comm]

/-- Claim C2, witness: in the idle state the wait predicate holds, so
`WaitForAllTasks` returns. -/
theorem C2_witness :
    WaitForAllTasksPred { tasks := [], stopping := false, activeTasks := 0, maxQueueSize := 10 }
      = true :=
  (C2_waitForAllTasks_condition
    { tasks := [], stopping := false, activeTasks := 0, maxQueueSize := 10 }).1.mpr ⟨rfl, rfl⟩

/-- Claim C3: a blocking `Enqueue` entered while `stop_` is already true under
the lock fails with the "enqueue on stopped ThreadPool" error and leaves the
whole state — in particular the queue contents — unchanged, whatever
interference `wake` the capacity wait could have seen (the wait is never
reached). -/
theorem C3_enqueue_on_stopped_fails (s : PoolState) (wake : PoolState → PoolState) (t : Nat)
    (h : s.stopping = true) :
    Enqueue s wake t = (s, Except.error "enqueue on stopped ThreadPool") := by
  simp [Enqueue, h]

/-- Claim C3, witness: enqueueing task 9 on a stopped pool with task 5 queued
fails and mutates nothing. -/
theorem C3_witness :
    Enqueue { tasks := [5], stopping := true, activeTasks := 0, maxQueueSize := 10 } id 9 =
      ({ tasks := [5], stopping := true, activeTasks := 0, maxQueueSize := 10 },
        Except.error "enqueue on stopped ThreadPool") :=
  C3_enqueue_on_stopped_fails
    { tasks := [5], stopping := true, activeTasks := 0, maxQueueSize := 10 } id 9 rfl

/-- Claim C4: every blocking `Enqueue` that does not fail with "pool stopped"
(i.e. `stop_` was false at entry) appends the task to the queue and returns its
Result Channel, for every interference `wake` during the capacity wait — in
particular when the queue stays at or above capacity for the whole grace
window. Capacity is a soft limit: the enqueue always admits the task. -/
theorem C4_enqueue_always_admits (s : PoolState) (wake : PoolState → PoolState) (t : Nat)
    (h : s.stopping = false) :
    (Enqueue s wake t).2 = Except.ok t ∧
    (Enqueue s wake t).1.tasks =
      (if s.maxQueueSize ≤ s.tasks.length then wake s else s).tasks ++ [t] := by
  simp [Enqueue, h]

/-- Claim C4, witness: a pool at capacity (2 tasks, capacity 2) where nothing
drains during the grace window (`wake = id`) still admits task 9 at the tail. -/
theorem C4_witness :
    (Enqueue { tasks := [1, 2], stopping := false, activeTasks := 0, maxQueueSize := 2 } id 9).2
        = Except.ok 9 ∧
    (Enqueue { tasks := [1, 2], stopping := false, activeTasks := 0, maxQueueSize := 2 } id 9).1.tasks
        = [1, 2, 9] := by
  have h := C4_enqueue_always_admits
    { tasks := [1, 2], stopping := false, activeTasks := 0, maxQueueSize := 2 } id 9 rfl
  exact ⟨h.1, h.2.trans (by decide)⟩

/-- Claim C5: `TryEnqueue` signals rejection only through its Bool — no error is
raised. It returns false, with the entire state (hence the queue) unchanged and
no waiting modelled, exactly when `stop_` is true or the queue length is at or
above capacity at call time; otherwise it appends the task at the tail and
returns true, handing the caller no Result Channel (the Bool is the whole
return value). -/
theorem C5_tryEnqueue_spec (s : PoolState) (t : Nat) :
    ((TryEnqueue s t).2 = false ↔
      (s.stopping = true ∨ s.maxQueueSize ≤ s.tasks.length)) ∧
    ((TryEnqueue s t).2 = false → (TryEnqueue s t).1 = s) ∧
    ((TryEnqueue s t).2 = true →
      TryEnqueue s t = ({ s with tasks := s.tasks ++ [t] }, true)) := by
  rcases hs : s.stopping with _ | _
  · by_cases h2 : s.maxQueueSize ≤ s.tasks.length
    · simp [TryEnqueue, hs, h2]
    · simp [TryEnqueue, hs, h2]
  · simp [TryEnqueue, hs]

/-- Claim C5, witness: on a full queue (2 tasks, capacity 2) the rejected
`TryEnqueue` of task 9 leaves the state untouched. -/
theorem C5_witness :
    (TryEnqueue { tasks := [1, 2], stopping := false, activeTasks := 0, maxQueueSize := 2 } 9).1 =
      { tasks := [1, 2], stopping := false, activeTasks := 0, maxQueueSize := 2 } :=
  (C5_tryEnqueue_spec
    { tasks := [1, 2], stopping := false, activeTasks := 0, maxQueueSize := 2 } 9).2.1 (by decide)

/-- Claim C6: `GetNextTask` proceeds past its wait exactly when the queue is
non-empty or `stop_` is true; proceeding with `stop_ ∧ empty` it returns the
shutdown sentinel `none` with the state untouched, and otherwise it removes the
front task and increments `activeTasks_`, all in the same critical section
(one atomic transition of the model). -/
theorem C6_getNextTask_spec (s : PoolState) :
    (popWaitPred s = true ↔ (s.stopping = true ∨ s.tasks ≠ [])) ∧
    (s.stopping = true ∧ s.tasks = [] → GetNextTask s = (s, none)) ∧
    (∀ t rest, s.tasks = t :: rest →
      GetNextTask s = ({ s with tasks := rest, activeTasks := s.activeTasks + 1 }, some t)) := by
  refine ⟨?_, ?_, ?_⟩
  · simp [popWaitPred, List.isEmpty_iff]
  · rintro ⟨h1, h2⟩
    simp [GetNextTask, h1, h2]
  · intro t rest hq
    exact GetNextTask_cons s t rest hq

/-- Claim C6, witness: a stopping pool with tasks 4 and 5 queued still pops the
front task 4 and increments the active counter from 1 to 2. -/
theorem C6_witness :
    GetNextTask { tasks := [4, 5], stopping := true, activeTasks := 1, maxQueueSize := 10 } =
      ({ tasks := [5], stopping := true, activeTasks := 2, maxQueueSize := 10 }, some 4) :=
  (C6_getNextTask_spec
    { tasks := [4, 5], stopping := true, activeTasks := 1, maxQueueSize := 10 }).2.2 4 [5] rfl

/-- Claim C7: admission into the queue is FIFO. Starting from any non-stopping
state, after any sequence of successful blocking enqueues the workers remove
the tasks by `GetNextTask` in exactly the order they were appended: the
pre-existing queue first, then the new tasks in submission order. (Completion
order across workers is a race the model does not constrain.) -/
theorem C7_fifo_order (s : PoolState) (ts : List Nat) (h : s.stopping = false) :
    popSeq (s.tasks.length + ts.length) (enqueueSeq s ts) = s.tasks ++ ts := by
  rw [enqueueSeq_tasks ts s h]
  have hlen : s.tasks.length + ts.length =
      ({ s with tasks := s.tasks ++ ts } : PoolState).tasks.length := by
    simp
  rw [popSeq_tasks (s.tasks.length + ts.length) { s with tasks := s.tasks ++ ts } (le_of_eq hlen)]
  rw [hlen, List.take_length]

/-- Claim C7, witness: enqueueing 3, then 1, then 2 into an empty pool and
popping three times yields 3, 1, 2 in that order. -/
theorem C7_witness :
    popSeq 3 (enqueueSeq
      { tasks := [], stopping := false, activeTasks := 0, maxQueueSize := 10 } [3, 1, 2]) =
      [3, 1, 2] :=
  C7_fifo_order { tasks := [], stopping := false, activeTasks := 0, maxQueueSize := 10 }
    [3, 1, 2] rfl

/-- Claim C8: `stop_` is monotonic. Every operation of the pool — blocking
enqueue (under any interference), non-blocking enqueue, pop, completion
bookkeeping and the stop signal itself — maps a state with `stopping = true` to
a state with `stopping = true`; `WaitForAllTasks` does not write the state at
all. (A stopped `Enqueue` fails before its wait, so `wake` is never applied.) -/
theorem C8_stopping_monotonic (s : PoolState) (wake : PoolState → PoolState) (t : Nat)
    (h : s.stopping = true) :
    (Enqueue s wake t).1.stopping = true ∧
    (TryEnqueue s t).1.stopping = true ∧
    (GetNextTask s).1.stopping = true ∧
    (NotifyTaskCompletion s).1.stopping = true ∧
    (SignalThreadsToStop s).stopping = true := by
  refine ⟨?_, ?_, ?_, ?_, ?_⟩
  · simp [Enqueue, h]
  · simp [TryEnqueue, h]
  · rcases hq : s.tasks with _ | ⟨t0, rest⟩ <;> simp [GetNextTask, h, hq]
  · simpa [NotifyTaskCompletion] using h
  · simp [SignalThreadsToStop]

/-- Claim C8, witness: every operation applied to a concrete stopped state
leaves `stopping` true. -/
theorem C8_witness :
    (Enqueue { tasks := [1], stopping := true, activeTasks := 2, maxQueueSize := 10 } id 9).1.stopping
      = true ∧
    (TryEnqueue { tasks := [1], stopping := true, activeTasks := 2, maxQueueSize := 10 } 9).1.stopping
      = true ∧
    (GetNextTask { tasks := [1], stopping := true, activeTasks := 2, maxQueueSize := 10 }).1.stopping
      = true ∧
    (NotifyTaskCompletion { tasks := [1], stopping := true, activeTasks := 2, maxQueueSize := 10 }).1.stopping
      = true ∧
    (SignalThreadsToStop { tasks := [1], stopping := true, activeTasks := 2, maxQueueSize := 10 }).stopping
      = true :=
  C8_stopping_monotonic { tasks := [1], stopping := true, activeTasks := 2, maxQueueSize := 10 }
    id 9 rfl

/-- Claim C9: the blocking `Enqueue` checks `stop_` only once, at entry. If the
pool is not stopping at entry, the queue is at or above capacity (so the grace
window is entered), and shutdown begins while the caller waits (the re-acquired
state `wake s` has `stopping = true`), the call still does not fail: the task
is appended to the queue of the now-stopping pool and the Result Channel is
returned. -/
theorem C9_enqueue_single_stop_check (s : PoolState) (wake : PoolState → PoolState) (t : Nat)
    (h1 : s.stopping = false) (h2 : s.maxQueueSize ≤ s.tasks.length)
    (h3 : (wake s).stopping = true) :
    Enqueue s wake t = ({ wake s with tasks := (wake s).tasks ++ [t] }, Except.ok t) ∧
    (Enqueue s wake t).1.stopping = true := by
  constructor
  · simp [Enqueue, h1, h2]
  · simp [Enqueue, h1, h2, h3]

/-- Claim C9, witness: a full single-slot pool, with shutdown signalled during
the caller's grace window, still admits task 9 behind task 1. -/
theorem C9_witness :
    (Enqueue { tasks := [1], stopping := false, activeTasks := 0, maxQueueSize := 1 }
      (fun a => { a with stopping := true }) 9).1.stopping = true :=
  (C9_enqueue_single_stop_check
    { tasks := [1], stopping := false, activeTasks := 0, maxQueueSize := 1 }
    (fun a => { a with stopping := true }) 9 rfl (by decide) rfl).2

/-- Claim C10: an error raised by a task body is captured by the
`packaged_task` into the future's shared state and never reaches the worker
loop: the iteration still completes (it does not exit), performs exactly the
same bookkeeping as for any other outcome (front task removed, `activeTasks_`
net unchanged after increment and decrement), and the captured error lives only
in the `WorkerStep` record of the run — for a task submitted via `TryEnqueue`
the future was discarded at submission (`TryEnqueue` returns only a Bool), so
no caller can observe it and the failure is silently swallowed. -/
theorem C10_tryEnqueue_error_swallowed (beh beh2 : Nat → Except String Unit)
    (s : PoolState) (t : Nat) (rest : List Nat) (e : String)
    (hq : s.tasks = t :: rest) (hb : beh t = Except.error e) :
    workerIteration beh s = ({ s with tasks := rest }, WorkerStep.completed t (Except.error e)) ∧
    (workerIteration beh s).1 = (workerIteration beh2 s).1 := by
  have hg := GetNextTask_cons s t rest hq
  constructor
  · simp [workerIteration, hg, NotifyTaskCompletion, hb]
  · simp [workerIteration, hg]

/-- Claim C10, witness: a worker running the failing task 4 swallows the error
"boom", removes the task and leaves the active counter where it started. -/
theorem C10_witness :
    workerIteration (fun _ => Except.error "boom")
      { tasks := [4], stopping := false, activeTasks := 3, maxQueueSize := 10 } =
      ({ tasks := [], stopping := false, activeTasks := 3, maxQueueSize := 10 },
        WorkerStep.completed 4 (Except.error "boom")) :=
  (C10_tryEnqueue_error_swallowed (fun _ => Except.error "boom") (fun _ => Except.ok ())
    { tasks := [4], stopping := false, activeTasks := 3, maxQueueSize := 10 }
    4 [] "boom" rfl rfl).1
